import Mathlib

/-!
Shallow embedding of `src/agent.py`: the replay memory shared by all agents
(base class `Agent`), and the four learning rules `DQNAgent.learn`,
`DDQNAgent.learn`, `DQVAgent.learn`, `DQVMaxAgent.learn` together with the
corresponding constructors.

Modelling conventions:
* numpy scalars and torch scalars are modelled as `Rat`; states are an
  abstract type `S`; actions are `Nat` (the stored int32 actions are used
  only as gather indices, which torch requires to be non-negative).
* the five fixed-length numpy arrays of the buffer are modelled as maps
  `Nat → value`; `store_transition` writes all five at index
  `mem_counter % memory_size`, exactly as lines 48-54 of the source.
* the neural networks (`network.py`, external collaborators per the spec) are
  modelled by their parameter vectors together with evaluation functions
  `qEval : θ → S → List Rat` (one estimate per action) and
  `vEval : θ → S → Rat`, passed as arguments to `learn`.
* one Adam/MSE optimizer step (`loss.backward(); optimizer.step()`) is an
  external collaborator as well; it is modelled by an oracle
  `fit : θ → List Rat → List Rat → θ` receiving the current parameters, the
  per-row predictions and the per-row regression targets, and returning the
  updated parameters.  Gradient tracking (`torch.no_grad()`) has no
  counterpart in a functional embedding: values computed inside `no_grad`
  blocks are plain data handed to `fit`, which matches their role as
  constants of the optimization step.
* `np.random.choice(max_mem, batch_size, replace=False)` is externalized:
  the sampled index list is an argument of `learn`.
* `choose_action` is not modelled: no claim refers to it.
-/

/-- One stored transition: row `i` of the five parallel buffers. -/
structure Transition (S : Type) where
  state : S
  action : Nat
  reward : Rat
  nextState : S
  terminal : Bool
deriving DecidableEq

/-- The base class `Agent` (lines 10-36): the five parallel buffers of
capacity `memory_size`, the write counter `mem_counter`, and `n_actions`.
The numpy arrays are zero-initialized fixed-size arrays; they are modelled
as total maps on `Nat` (only indices `< memorySize` are ever written, since
every write index is reduced `% memorySize`). -/
structure Agent (S : Type) where
  memorySize : Nat
  stateBuffer : Nat → S
  nextStateBuffer : Nat → S
  actionBuffer : Nat → Nat
  rewardBuffer : Nat → Rat
  terminalBuffer : Nat → Bool
  memCounter : Nat
  nActions : Nat

/-- `Agent.__init__` (lines 11-36): zero-filled buffers, `mem_counter = 0`.
`z` is the zero state (`np.zeros(state_dimensions)`). -/
def Agent.init (z : S) (memorySize nActions : Nat) : Agent S :=
  { memorySize := memorySize
    stateBuffer := fun _ => z
    nextStateBuffer := fun _ => z
    actionBuffer := fun _ => 0
    rewardBuffer := fun _ => 0
    terminalBuffer := fun _ => false
    memCounter := 0
    nActions := nActions }

/-- `Agent.store_transition` (lines 39-54): write all five arrays at index
`mem_counter % memory_size`, then increment `mem_counter`. -/
def Agent.storeTransition (b : Agent S) (state : S) (action : Nat)
    (reward : Rat) (newState : S) (done : Bool) : Agent S :=
  let index := b.memCounter % b.memorySize
  { b with
    stateBuffer := fun j => if j = index then state else b.stateBuffer j
    actionBuffer := fun j => if j = index then action else b.actionBuffer j
    rewardBuffer := fun j => if j = index then reward else b.rewardBuffer j
    nextStateBuffer := fun j => if j = index then newState else b.nextStateBuffer j
    terminalBuffer := fun j => if j = index then done else b.terminalBuffer j
    memCounter := b.memCounter + 1 }

/-- Row `i` of the five parallel buffers, packaged as one transition.  This
is how `learn` reads the buffers back (numpy fancy indexing at lines
166-170 etc. preserves row correspondence across the five arrays). -/
def Agent.row (b : Agent S) (i : Nat) : Transition S :=
  ⟨b.stateBuffer i, b.actionBuffer i, b.rewardBuffer i, b.nextStateBuffer i,
    b.terminalBuffer i⟩

/-- Store a whole list of transitions in order. -/
def Agent.storeAll (b : Agent S) (ts : List (Transition S)) : Agent S :=
  ts.foldl (fun b t => b.storeTransition t.state t.action t.reward t.nextState t.terminal) b

/-- The rows of the sampled mini-batch: the five arrays restricted to the
sampled indices, row-aligned (lines 166-170 / 277-281 / 379-383 / 472-476). -/
def sampleRows (b : Agent S) (batchIndices : List Nat) : List (Transition S) :=
  batchIndices.map b.row

/-- `torch.max(row)` over the action dimension (rows are non-empty in the
program: `n_actions ≥ 1`; the `[]` case is junk). -/
def listMax : List Rat → Rat
  | [] => 0
  | x :: xs => xs.foldl max x

/-- `torch.argmax` over one row: index of the first maximal entry. -/
def argmaxIdx : List Rat → Nat
  | [] => 0
  | x :: xs => if 0 < xs.length ∧ x < listMax xs then argmaxIdx xs + 1 else 0

/-- Per-row gather of the online estimates at the taken action:
`q_s.gather(1, actions_batch.unsqueeze(1)).squeeze(1)`. -/
def gatherTaken (qEval : θ → S → List Rat) (p : θ) (rows : List (Transition S)) : List Rat :=
  rows.map (fun r => (qEval p r.state).getD r.action 0)

section Lemmas

variable {S : Type}

/-- Storing increments the write counter by one. -/
theorem Agent.memCounter_storeTransition (b : Agent S) (st : S) (a : Nat) (r : Rat)
    (ns : S) (d : Bool) :
    (b.storeTransition st a r ns d).memCounter = b.memCounter + 1 := rfl

/-- Storing leaves the capacity unchanged. -/
theorem Agent.memorySize_storeTransition (b : Agent S) (st : S) (a : Nat) (r : Rat)
    (ns : S) (d : Bool) :
    (b.storeTransition st a r ns d).memorySize = b.memorySize := rfl

/-- Reading a row after one store: the row at the write index
`mem_counter % memory_size` is the new transition, every other row is
unchanged — the write is aligned across the five arrays. -/
theorem Agent.row_storeTransition (b : Agent S) (st : S) (a : Nat) (r : Rat)
    (ns : S) (d : Bool) (i : Nat) :
    (b.storeTransition st a r ns d).row i =
      if i = b.memCounter % b.memorySize then ⟨st, a, r, ns, d⟩ else b.row i := by
  by_cases h : i = b.memCounter % b.memorySize <;>
    simp [Agent.storeTransition, Agent.row, h]

theorem Agent.storeAll_append (b : Agent S) (ts : List (Transition S)) (t : Transition S) :
    b.storeAll (ts ++ [t]) =
      (b.storeAll ts).storeTransition t.state t.action t.reward t.nextState t.terminal := by
  simp [Agent.storeAll, List.foldl_append]

theorem Agent.memCounter_storeAll (b : Agent S) (ts : List (Transition S)) :
    (b.storeAll ts).memCounter = b.memCounter + ts.length := by
  induction ts generalizing b with
  | nil => rfl
  | cons t ts ih =>
      simp [Agent.storeAll] at ih ⊢
      rw [ih]
      simp [Agent.storeTransition]
      omega

theorem Agent.memorySize_storeAll (b : Agent S) (ts : List (Transition S)) :
    (b.storeAll ts).memorySize = b.memorySize := by
  induction ts generalizing b with
  | nil => rfl
  | cons t ts ih =>
      simp [Agent.storeAll] at ih ⊢
      rw [ih]
      rfl

theorem Agent.memCounter_init (z : S) (M nA : Nat) :
    (Agent.init z M nA).memCounter = 0 := rfl

theorem Agent.memorySize_init (z : S) (M nA : Nat) :
    (Agent.init z M nA).memorySize = M := rfl

/-- Ring-buffer contents after storing any list of transitions into a fresh
buffer: each slot `i` that was ever written holds the transition with the
largest index `j` of residue `i` modulo the capacity, and that index lies in
the final window of `M` consecutive writes. -/
theorem Agent.storeAll_row (z : S) (M nA : Nat) (hM : 0 < M) (ts : List (Transition S)) :
    ∀ i, i < min ts.length M →
      ∃ j, ∃ hj : j < ts.length, ts.length ≤ j + M ∧ j % M = i ∧
        ((Agent.init z M nA).storeAll ts).row i = ts[j] := by
  induction ts using List.reverseRecOn with
  | nil => intro i hi; simp at hi
  | append_singleton ts t ih =>
      intro i hi
      have hcount : ((Agent.init z M nA).storeAll ts).memCounter = ts.length := by
        rw [Agent.memCounter_storeAll]; simp [Agent.init]
      have hsize : ((Agent.init z M nA).storeAll ts).memorySize = M := by
        rw [Agent.memorySize_storeAll]; rfl
      have hlen : (ts ++ [t]).length = ts.length + 1 := by simp
      rw [Agent.storeAll_append, Agent.row_storeTransition, hcount, hsize]
      by_cases hw : i = ts.length % M
      · refine ⟨ts.length, by simp, by omega, by omega, ?_⟩
        rw [if_pos hw]
        simp
      · rw [if_neg hw]
        have hiM : i < M := by
          simp at hi
          omega
        have hilt : i < ts.length := by
          simp at hi
          rcases Nat.lt_or_ge i ts.length with h | h
          · exact h
          · exfalso
            have h2 : i = ts.length := by omega
            have h3 : ts.length % M = ts.length := Nat.mod_eq_of_lt (by omega)
            omega
        obtain ⟨j, hj, hwin, hres, hrow⟩ := ih i (by simp; omega)
        have hne : j + M ≠ ts.length := by
          intro hEq
          have h4 : (j + M) % M = j % M := Nat.add_mod_right j M
          rw [hEq] at h4
          exact hw (by omega)
        refine ⟨j, by simp; omega, by omega, hres, ?_⟩
        rw [hrow]
        rw [List.getElem_append_left hj]

end Lemmas

/-! ### DQN agent (`DQNAgent`, lines 94-200) -/

/-- `DQNAgent` state: the inherited buffer plus the hyperparameters read in
`__init__` (lines 104-113) and the two parameter vectors (online and target
Q-network).  `θ` is the opaque parameter type of the external network. -/
structure DQNAgent (S θ : Type) where
  buf : Agent S
  lr : Rat
  gamma : Rat
  epsilon : Rat
  epsilonMin : Rat
  epsilonDecay : Rat
  batchSize : Nat
  targetUpdateFrequency : Nat
  burnInPeriod : Nat
  learnStepCounter : Nat
  qParams : θ
  qTargetParams : θ

/-- `DQNAgent.__init__` (lines 95-126).  `qNetworkDraw` and
`qTargetNetworkDraw` are the fresh random parameters produced by the two
`q_network_class(...)` constructor calls (lines 116-117); line 118
(`load_state_dict`) then overwrites the target draw with the online
parameters. -/
def DQNAgent.init (z : S) (memorySize nActions : Nat) (qNetworkDraw qTargetNetworkDraw : θ)
    (lr gamma epsilonStart epsilonMin epsilonDecay : Rat)
    (batchSize targetUpdateFrequency burnInPeriod : Nat) : DQNAgent S θ :=
  { buf := Agent.init z memorySize nActions
    lr := lr
    gamma := gamma
    epsilon := epsilonStart
    epsilonMin := epsilonMin
    epsilonDecay := epsilonDecay
    batchSize := batchSize
    targetUpdateFrequency := targetUpdateFrequency
    burnInPeriod := burnInPeriod
    learnStepCounter := 0
    qParams := qNetworkDraw
    qTargetParams := qNetworkDraw }

/-- Line 200: `epsilon = epsilon * epsilon_decay if epsilon > epsilon_min
else epsilon_min` — the conditional decay form used only by `DQNAgent`. -/
def dqnEpsilonDecay (epsilon epsilonMin epsilonDecay : Rat) : Rat :=
  if epsilon > epsilonMin then epsilon * epsilonDecay else epsilonMin

/-- Lines 179-184, per sampled row: zero the whole `q_next` row of a
terminal transition, then `reward + gamma * max` over the row. -/
def dqnTargetRow (qNextRow : List Rat) (terminal : Bool) (reward gamma : Rat) : Rat :=
  let qNext := if terminal then List.replicate qNextRow.length 0 else qNextRow
  reward + gamma * listMax qNext

/-- The batch of DQN regression targets (lines 179-184): computed from the
target network parameters. -/
def dqnTargets (qEval : θ → S → List Rat) (qTargetParams : θ) (gamma : Rat)
    (rows : List (Transition S)) : List Rat :=
  rows.map (fun r => dqnTargetRow (qEval qTargetParams r.nextState) r.terminal r.reward gamma)

/-- `DQNAgent.learn` (lines 154-200).  Inputs: the network forward function,
the optimizer-step oracle, and the sampled batch indices. -/
def DQNAgent.learn (qEval : θ → S → List Rat) (fit : θ → List Rat → List Rat → θ)
    (batchIndices : List Nat) (s : DQNAgent S θ) : DQNAgent S θ :=
  if s.buf.memCounter < s.burnInPeriod then s
  else
    let rows := sampleRows s.buf batchIndices
    let qActionTaken := gatherTaken qEval s.qParams rows
    let qTargetVals := dqnTargets qEval s.qTargetParams s.gamma rows
    let qParams2 := fit s.qParams qActionTaken qTargetVals
    let c2 := s.learnStepCounter + 1
    { s with
      qParams := qParams2
      qTargetParams := if c2 % s.targetUpdateFrequency = 0 then qParams2 else s.qTargetParams
      learnStepCounter := c2
      epsilon := dqnEpsilonDecay s.epsilon s.epsilonMin s.epsilonDecay }

/-! ### Double-DQN agent (`DDQNAgent`, lines 201-318) -/

/-- `DDQNAgent` state (lines 202-236).  The soft update at lines 312-313
interpolates parameter-by-parameter, so here the parameter vectors are
concretely flattened into `List Rat`. -/
structure DDQNAgent (S : Type) where
  buf : Agent S
  lr : Rat
  gamma : Rat
  epsilon : Rat
  epsilonMin : Rat
  epsilonDecay : Rat
  batchSize : Nat
  targetUpdateFrequency : Nat
  burnInPeriod : Nat
  learnStepCounter : Nat
  tWeight : Rat
  softUpdate : Bool
  qParams : List Rat
  qTargetParams : List Rat

/-- `DDQNAgent.__init__` (lines 202-236).  In the source the defaults are
`t_weight_start=0.2` and `soft_update=False`; note that, unlike `DQNAgent`,
lines 227-229 create the target network but never copy the online parameters
into it, so `qTargetParams` keeps the second fresh draw. -/
def DDQNAgent.init (z : S) (memorySize nActions : Nat)
    (qNetworkDraw qTargetNetworkDraw : List Rat)
    (tWeightStart : Rat) (softUpdate : Bool)
    (lr gamma epsilonStart epsilonMin epsilonDecay : Rat)
    (batchSize targetUpdateFrequency burnInPeriod : Nat) : DDQNAgent S :=
  { buf := Agent.init z memorySize nActions
    lr := lr
    gamma := gamma
    epsilon := epsilonStart
    epsilonMin := epsilonMin
    epsilonDecay := epsilonDecay
    batchSize := batchSize
    targetUpdateFrequency := targetUpdateFrequency
    burnInPeriod := burnInPeriod
    learnStepCounter := 0
    tWeight := tWeightStart
    softUpdate := softUpdate
    qParams := qNetworkDraw
    qTargetParams := qTargetNetworkDraw }

/-- Lines 312-313: `target_param.copy_(t_weight * param + (1 - t_weight) *
target_param)` for every parameter pair. -/
def softUpdateParams (tWeight : Rat) (onlineParams targetParams : List Rat) : List Rat :=
  List.zipWith (fun p tp => tWeight * p + (1 - tWeight) * tp) onlineParams targetParams

/-- Lines 288-298, per sampled row: the action is selected by `argmax` of
the ONLINE network on `s'` (after zeroing terminal rows), and evaluated by
gathering the TARGET network row (also zeroed for terminal rows) at that
selected index; the target is `reward + gamma * gathered`. -/
def ddqnTargetRow (qSnextRow targetQSnextRow : List Rat) (terminal : Bool)
    (reward gamma : Rat) : Rat :=
  let qSnext := if terminal then List.replicate qSnextRow.length 0 else qSnextRow
  let aStar := argmaxIdx qSnext
  let tRow := if terminal then List.replicate targetQSnextRow.length 0 else targetQSnextRow
  reward + gamma * tRow.getD aStar 0

/-- The batch of Double-DQN regression targets (lines 288-298). -/
def ddqnTargets (qEval : List Rat → S → List Rat) (qParams qTargetParams : List Rat)
    (gamma : Rat) (rows : List (Transition S)) : List Rat :=
  rows.map (fun r =>
    ddqnTargetRow (qEval qParams r.nextState) (qEval qTargetParams r.nextState)
      r.terminal r.reward gamma)

/-- `DDQNAgent.learn` (lines 265-318). -/
def DDQNAgent.learn (qEval : List Rat → S → List Rat)
    (fit : List Rat → List Rat → List Rat → List Rat)
    (batchIndices : List Nat) (s : DDQNAgent S) : DDQNAgent S :=
  if s.buf.memCounter < s.burnInPeriod then s
  else
    let rows := sampleRows s.buf batchIndices
    let qActionTaken := gatherTaken qEval s.qParams rows
    let targets := ddqnTargets qEval s.qParams s.qTargetParams s.gamma rows
    let qParams2 := fit s.qParams qActionTaken targets
    let c2 := s.learnStepCounter + 1
    { s with
      qParams := qParams2
      qTargetParams :=
        if c2 % s.targetUpdateFrequency = 0 then
          if s.softUpdate then softUpdateParams s.tWeight qParams2 s.qTargetParams
          else qParams2
        else s.qTargetParams
      learnStepCounter := c2
      epsilon := max (s.epsilon * s.epsilonDecay) s.epsilonMin }

/-! ### DQV agent (`DQVAgent`, lines 320-410) -/

/-- `DQVAgent` state (lines 321-356): an online Q-network, an online
V-network, and a delayed target V-network. -/
structure DQVAgent (S θq θv : Type) where
  buf : Agent S
  lr : Rat
  gamma : Rat
  epsilon : Rat
  epsilonMin : Rat
  epsilonDecay : Rat
  batchSize : Nat
  targetUpdateFrequency : Nat
  burnInPeriod : Nat
  learnStepCounter : Nat
  qParams : θq
  vParams : θv
  targetVParams : θv

/-- `DQVAgent.__init__` (lines 321-356): line 346 copies the online
V-parameters into the target V-network, so the target V draw is discarded. -/
def DQVAgent.init (z : S) (memorySize nActions : Nat) (qNetworkDraw : θq)
    (vNetworkDraw targetVNetworkDraw : θv)
    (lr gamma epsilonStart epsilonMin epsilonDecay : Rat)
    (batchSize targetUpdateFrequency burnInPeriod : Nat) : DQVAgent S θq θv :=
  { buf := Agent.init z memorySize nActions
    lr := lr
    gamma := gamma
    epsilon := epsilonStart
    epsilonMin := epsilonMin
    epsilonDecay := epsilonDecay
    batchSize := batchSize
    targetUpdateFrequency := targetUpdateFrequency
    burnInPeriod := burnInPeriod
    learnStepCounter := 0
    qParams := qNetworkDraw
    vParams := vNetworkDraw
    targetVParams := vNetworkDraw }

/-- Lines 387-390: the single shared DQV target
`r + gamma * V_target(s')` (zero bootstrap on terminal rows), computed once
from the target V-network inside `torch.no_grad()`. -/
def dqvTargets (vEval : θv → S → Rat) (targetVParams : θv) (gamma : Rat)
    (rows : List (Transition S)) : List Rat :=
  rows.map (fun r =>
    r.reward + gamma * (if r.terminal then 0 else vEval targetVParams r.nextState))

/-- `DQVAgent.learn` (lines 369-410): one frozen target `target_dqv`, then
the V-network fit, then the Q-network fit against the same target. -/
def DQVAgent.learn (qEval : θq → S → List Rat) (vEval : θv → S → Rat)
    (qFit : θq → List Rat → List Rat → θq) (vFit : θv → List Rat → List Rat → θv)
    (batchIndices : List Nat) (s : DQVAgent S θq θv) : DQVAgent S θq θv :=
  if s.buf.memCounter < s.burnInPeriod then s
  else
    let rows := sampleRows s.buf batchIndices
    let targetDqv := dqvTargets vEval s.targetVParams s.gamma rows
    let vS := rows.map (fun r => vEval s.vParams r.state)
    let vParams2 := vFit s.vParams vS targetDqv
    let qActionTaken := gatherTaken qEval s.qParams rows
    let qParams2 := qFit s.qParams qActionTaken targetDqv
    let c2 := s.learnStepCounter + 1
    { s with
      vParams := vParams2
      qParams := qParams2
      learnStepCounter := c2
      targetVParams := if c2 % s.targetUpdateFrequency = 0 then vParams2 else s.targetVParams
      epsilon := max s.epsilonMin (s.epsilon * s.epsilonDecay) }

/-! ### DQV-Max agent (`DQVMaxAgent`, lines 412-509) -/

/-- `DQVMaxAgent` state (lines 413-448): an online Q-network with its target
copy, and an online V-network with no target. -/
structure DQVMaxAgent (S θq θv : Type) where
  buf : Agent S
  lr : Rat
  gamma : Rat
  epsilon : Rat
  epsilonMin : Rat
  epsilonDecay : Rat
  batchSize : Nat
  targetUpdateFrequency : Nat
  burnInPeriod : Nat
  learnStepCounter : Nat
  qParams : θq
  targetQParams : θq
  vParams : θv

/-- `DQVMaxAgent.__init__` (lines 413-448): line 439 copies the online
Q-parameters into the target Q-network. -/
def DQVMaxAgent.init (z : S) (memorySize nActions : Nat)
    (qNetworkDraw targetQNetworkDraw : θq) (vNetworkDraw : θv)
    (lr gamma epsilonStart epsilonMin epsilonDecay : Rat)
    (batchSize targetUpdateFrequency burnInPeriod : Nat) : DQVMaxAgent S θq θv :=
  { buf := Agent.init z memorySize nActions
    lr := lr
    gamma := gamma
    epsilon := epsilonStart
    epsilonMin := epsilonMin
    epsilonDecay := epsilonDecay
    batchSize := batchSize
    targetUpdateFrequency := targetUpdateFrequency
    burnInPeriod := burnInPeriod
    learnStepCounter := 0
    qParams := qNetworkDraw
    targetQParams := qNetworkDraw
    vParams := vNetworkDraw }

/-- Lines 480-484: the V-network target
`r + gamma * max_a Q_target(s', a)` — the max is computed first, then zeroed
on terminal rows. -/
def dqvmaxVTargets (qEval : θq → S → List Rat) (targetQParams : θq) (gamma : Rat)
    (rows : List (Transition S)) : List Rat :=
  rows.map (fun r =>
    r.reward + gamma *
      (if r.terminal then 0 else listMax (qEval targetQParams r.nextState)))

/-- Lines 493-496: the Q-network target `r + gamma * V(s')` evaluated with
the V-parameters passed in — in `learn` these are the parameters AFTER the
V-optimizer step. -/
def dqvmaxQTargets (vEval : θv → S → Rat) (vParams : θv) (gamma : Rat)
    (rows : List (Transition S)) : List Rat :=
  rows.map (fun r =>
    r.reward + gamma * (if r.terminal then 0 else vEval vParams r.nextState))

/-- `DQVMaxAgent.learn` (lines 462-509): the V-network is fit against the
target-Q bootstrap, then the Q-network is fit against a bootstrap of the
just-updated V-network (line 494 runs after `v_optimizer.step()` at
line 489). -/
def DQVMaxAgent.learn (qEval : θq → S → List Rat) (vEval : θv → S → Rat)
    (qFit : θq → List Rat → List Rat → θq) (vFit : θv → List Rat → List Rat → θv)
    (batchIndices : List Nat) (s : DQVMaxAgent S θq θv) : DQVMaxAgent S θq θv :=
  if s.buf.memCounter < s.burnInPeriod then s
  else
    let rows := sampleRows s.buf batchIndices
    let vTarget := dqvmaxVTargets qEval s.targetQParams s.gamma rows
    let vS := rows.map (fun r => vEval s.vParams r.state)
    let vParams2 := vFit s.vParams vS vTarget
    let qTarget := dqvmaxQTargets vEval vParams2 s.gamma rows
    let qActionTaken := gatherTaken qEval s.qParams rows
    let qParams2 := qFit s.qParams qActionTaken qTarget
    let c2 := s.learnStepCounter + 1
    { s with
      vParams := vParams2
      qParams := qParams2
      learnStepCounter := c2
      targetQParams := if c2 % s.targetUpdateFrequency = 0 then qParams2 else s.targetQParams
      epsilon := max s.epsilonMin (s.epsilon * s.epsilonDecay) }

/-! ### Unfolding lemmas for the four `learn` functions -/

section LearnLemmas

variable {S θ θq θv : Type}

/-- Burn-in guard branch of `DQNAgent.learn` (lines 155-156). -/
theorem dqnLearn_of_burnIn (qEval : θ → S → List Rat)
    (fit : θ → List Rat → List Rat → θ) (idx : List Nat) (s : DQNAgent S θ)
    (h : s.buf.memCounter < s.burnInPeriod) :
    DQNAgent.learn qEval fit idx s = s := by
  simp only [DQNAgent.learn]
  rw [if_pos h]

/-- Completed-step branch of `DQNAgent.learn` (lines 158-200). -/
theorem dqnLearn_eq (qEval : θ → S → List Rat)
    (fit : θ → List Rat → List Rat → θ) (idx : List Nat) (s : DQNAgent S θ)
    (h : s.burnInPeriod ≤ s.buf.memCounter) :
    DQNAgent.learn qEval fit idx s =
      { s with
        qParams := fit s.qParams (gatherTaken qEval s.qParams (sampleRows s.buf idx))
          (dqnTargets qEval s.qTargetParams s.gamma (sampleRows s.buf idx))
        qTargetParams :=
          if (s.learnStepCounter + 1) % s.targetUpdateFrequency = 0 then
            fit s.qParams (gatherTaken qEval s.qParams (sampleRows s.buf idx))
              (dqnTargets qEval s.qTargetParams s.gamma (sampleRows s.buf idx))
          else s.qTargetParams
        learnStepCounter := s.learnStepCounter + 1
        epsilon := dqnEpsilonDecay s.epsilon s.epsilonMin s.epsilonDecay } := by
  simp only [DQNAgent.learn]
  rw [if_neg (not_lt.mpr h)]

/-- Burn-in guard branch of `DDQNAgent.learn` (lines 266-267). -/
theorem ddqnLearn_of_burnIn (qEval : List Rat → S → List Rat)
    (fit : List Rat → List Rat → List Rat → List Rat) (idx : List Nat) (s : DDQNAgent S)
    (h : s.buf.memCounter < s.burnInPeriod) :
    DDQNAgent.learn qEval fit idx s = s := by
  simp only [DDQNAgent.learn]
  rw [if_pos h]

/-- Completed-step branch of `DDQNAgent.learn` (lines 269-318). -/
theorem ddqnLearn_eq (qEval : List Rat → S → List Rat)
    (fit : List Rat → List Rat → List Rat → List Rat) (idx : List Nat) (s : DDQNAgent S)
    (h : s.burnInPeriod ≤ s.buf.memCounter) :
    DDQNAgent.learn qEval fit idx s =
      { s with
        qParams := fit s.qParams (gatherTaken qEval s.qParams (sampleRows s.buf idx))
          (ddqnTargets qEval s.qParams s.qTargetParams s.gamma (sampleRows s.buf idx))
        qTargetParams :=
          if (s.learnStepCounter + 1) % s.targetUpdateFrequency = 0 then
            if s.softUpdate then
              softUpdateParams s.tWeight
                (fit s.qParams (gatherTaken qEval s.qParams (sampleRows s.buf idx))
                  (ddqnTargets qEval s.qParams s.qTargetParams s.gamma (sampleRows s.buf idx)))
                s.qTargetParams
            else
              fit s.qParams (gatherTaken qEval s.qParams (sampleRows s.buf idx))
                (ddqnTargets qEval s.qParams s.qTargetParams s.gamma (sampleRows s.buf idx))
          else s.qTargetParams
        learnStepCounter := s.learnStepCounter + 1
        epsilon := max (s.epsilon * s.epsilonDecay) s.epsilonMin } := by
  simp only [DDQNAgent.learn]
  rw [if_neg (not_lt.mpr h)]

/-- Burn-in guard branch of `DQVAgent.learn` (lines 370-371). -/
theorem dqvLearn_of_burnIn (qEval : θq → S → List Rat) (vEval : θv → S → Rat)
    (qFit : θq → List Rat → List Rat → θq) (vFit : θv → List Rat → List Rat → θv)
    (idx : List Nat) (s : DQVAgent S θq θv)
    (h : s.buf.memCounter < s.burnInPeriod) :
    DQVAgent.learn qEval vEval qFit vFit idx s = s := by
  simp only [DQVAgent.learn]
  rw [if_pos h]

/-- Completed-step branch of `DQVAgent.learn` (lines 373-410). -/
theorem dqvLearn_eq (qEval : θq → S → List Rat) (vEval : θv → S → Rat)
    (qFit : θq → List Rat → List Rat → θq) (vFit : θv → List Rat → List Rat → θv)
    (idx : List Nat) (s : DQVAgent S θq θv)
    (h : s.burnInPeriod ≤ s.buf.memCounter) :
    DQVAgent.learn qEval vEval qFit vFit idx s =
      { s with
        vParams := vFit s.vParams ((sampleRows s.buf idx).map (fun r => vEval s.vParams r.state))
          (dqvTargets vEval s.targetVParams s.gamma (sampleRows s.buf idx))
        qParams := qFit s.qParams (gatherTaken qEval s.qParams (sampleRows s.buf idx))
          (dqvTargets vEval s.targetVParams s.gamma (sampleRows s.buf idx))
        learnStepCounter := s.learnStepCounter + 1
        targetVParams :=
          if (s.learnStepCounter + 1) % s.targetUpdateFrequency = 0 then
            vFit s.vParams ((sampleRows s.buf idx).map (fun r => vEval s.vParams r.state))
              (dqvTargets vEval s.targetVParams s.gamma (sampleRows s.buf idx))
          else s.targetVParams
        epsilon := max s.epsilonMin (s.epsilon * s.epsilonDecay) } := by
  simp only [DQVAgent.learn]
  rw [if_neg (not_lt.mpr h)]

/-- Burn-in guard branch of `DQVMaxAgent.learn` (lines 463-464). -/
theorem dqvmaxLearn_of_burnIn (qEval : θq → S → List Rat) (vEval : θv → S → Rat)
    (qFit : θq → List Rat → List Rat → θq) (vFit : θv → List Rat → List Rat → θv)
    (idx : List Nat) (s : DQVMaxAgent S θq θv)
    (h : s.buf.memCounter < s.burnInPeriod) :
    DQVMaxAgent.learn qEval vEval qFit vFit idx s = s := by
  simp only [DQVMaxAgent.learn]
  rw [if_pos h]

/-- Completed-step branch of `DQVMaxAgent.learn` (lines 466-509).  Note the
Q-target is computed from the V-parameters returned by the V-fit. -/
theorem dqvmaxLearn_eq (qEval : θq → S → List Rat) (vEval : θv → S → Rat)
    (qFit : θq → List Rat → List Rat → θq) (vFit : θv → List Rat → List Rat → θv)
    (idx : List Nat) (s : DQVMaxAgent S θq θv)
    (h : s.burnInPeriod ≤ s.buf.memCounter) :
    DQVMaxAgent.learn qEval vEval qFit vFit idx s =
      { s with
        vParams := vFit s.vParams ((sampleRows s.buf idx).map (fun r => vEval s.vParams r.state))
          (dqvmaxVTargets qEval s.targetQParams s.gamma (sampleRows s.buf idx))
        qParams := qFit s.qParams (gatherTaken qEval s.qParams (sampleRows s.buf idx))
          (dqvmaxQTargets vEval
            (vFit s.vParams ((sampleRows s.buf idx).map (fun r => vEval s.vParams r.state))
              (dqvmaxVTargets qEval s.targetQParams s.gamma (sampleRows s.buf idx)))
            s.gamma (sampleRows s.buf idx))
        learnStepCounter := s.learnStepCounter + 1
        targetQParams :=
          if (s.learnStepCounter + 1) % s.targetUpdateFrequency = 0 then
            qFit s.qParams (gatherTaken qEval s.qParams (sampleRows s.buf idx))
              (dqvmaxQTargets vEval
                (vFit s.vParams ((sampleRows s.buf idx).map (fun r => vEval s.vParams r.state))
                  (dqvmaxVTargets qEval s.targetQParams s.gamma (sampleRows s.buf idx)))
                s.gamma (sampleRows s.buf idx))
          else s.targetQParams
        epsilon := max s.epsilonMin (s.epsilon * s.epsilonDecay) } := by
  simp only [DQVMaxAgent.learn]
  rw [if_neg (not_lt.mpr h)]

end LearnLemmas

/-! ### Helper lemmas on `listMax`, `argmaxIdx`, `List.zipWith` -/

theorem foldl_max_le_iff (l : List Rat) : ∀ (a : Rat), a ≤ l.foldl max a := by
  induction l with
  | nil => intro a; exact le_refl a
  | cons x xs ih =>
      intro a
      exact le_trans (le_max_left a x) (ih (max a x))

theorem mem_le_foldl_max (l : List Rat) : ∀ (a : Rat), ∀ x ∈ l, x ≤ l.foldl max a := by
  induction l with
  | nil => intro a x hx; simp at hx
  | cons y ys ih =>
      intro a x hx
      rcases List.mem_cons.mp hx with h | h
      · subst h
        exact le_trans (le_max_right a x) (foldl_max_le_iff ys (max a x))
      · exact ih (max a y) x h

/-- Every element of a non-empty row is at most the row max. -/
theorem mem_le_listMax (l : List Rat) (x : Rat) (hx : x ∈ l) : x ≤ listMax l := by
  cases l with
  | nil => simp at hx
  | cons y ys =>
      rcases List.mem_cons.mp hx with h | h
      · subst h
        exact foldl_max_le_iff ys x
      · exact mem_le_foldl_max ys y x h

theorem foldl_max_max (l : List Rat) : ∀ (a b : Rat), l.foldl max (max a b) = max a (l.foldl max b) := by
  induction l with
  | nil => intro a b; rfl
  | cons c cs ih =>
      intro a b
      show cs.foldl max (max (max a b) c) = max a (cs.foldl max (max b c))
      rw [max_assoc, ih]

theorem listMax_cons (x : Rat) (l : List Rat) (hl : l ≠ []) :
    listMax (x :: l) = max x (listMax l) := by
  cases l with
  | nil => exact absurd rfl hl
  | cons y ys =>
      show ys.foldl max (max x y) = max x (ys.foldl max y)
      exact foldl_max_max ys x y

/-- The entry at `argmaxIdx l` is the maximum of a non-empty row. -/
theorem getD_argmaxIdx (l : List Rat) (hl : l ≠ []) :
    l.getD (argmaxIdx l) 0 = listMax l := by
  induction l with
  | nil => exact absurd rfl hl
  | cons x xs ih =>
      by_cases hc : 0 < xs.length ∧ x < listMax xs
      · have hxs : xs ≠ [] := by
          intro hEq
          rw [hEq] at hc
          simp at hc
        rw [show argmaxIdx (x :: xs) = argmaxIdx xs + 1 by simp only [argmaxIdx]; rw [if_pos hc]]
        rw [List.getD_cons_succ, ih hxs, listMax_cons x xs hxs]
        exact (max_eq_right (le_of_lt hc.2)).symm
      · rw [show argmaxIdx (x :: xs) = 0 by simp only [argmaxIdx]; rw [if_neg hc]]
        rw [List.getD_cons_zero]
        cases xs with
        | nil => rfl
        | cons y ys =>
            rw [listMax_cons x (y :: ys) (by simp)]
            have : ¬ x < listMax (y :: ys) := by
              intro hlt
              exact hc ⟨by simp, hlt⟩
            exact (max_eq_left (not_lt.mp this)).symm

/-- `argmaxIdx` is in bounds on a non-empty row. -/
theorem argmaxIdx_lt_length (l : List Rat) (hl : l ≠ []) : argmaxIdx l < l.length := by
  induction l with
  | nil => exact absurd rfl hl
  | cons x xs ih =>
      by_cases hc : 0 < xs.length ∧ x < listMax xs
      · have hxs : xs ≠ [] := by
          intro hEq
          rw [hEq] at hc
          simp at hc
        rw [show argmaxIdx (x :: xs) = argmaxIdx xs + 1 by simp only [argmaxIdx]; rw [if_pos hc]]
        simpa using ih hxs
      · rw [show argmaxIdx (x :: xs) = 0 by simp only [argmaxIdx]; rw [if_neg hc]]
        simp

theorem foldl_max_replicate_zero (n : Nat) : (List.replicate n (0 : Rat)).foldl max 0 = 0 := by
  induction n with
  | zero => rfl
  | succ n ih => simpa [List.replicate_succ, max_self] using ih

/-- The max of a zeroed row is zero. -/
theorem listMax_replicate_zero (n : Nat) : listMax (List.replicate n (0 : Rat)) = 0 := by
  cases n with
  | zero => rfl
  | succ n =>
      show (List.replicate n (0 : Rat)).foldl max 0 = 0
      exact foldl_max_replicate_zero n

theorem getD_zipWith (f : Rat → Rat → Rat) :
    ∀ (a b : List Rat) (j : Nat), j < a.length → j < b.length →
      (List.zipWith f a b).getD j 0 = f (a.getD j 0) (b.getD j 0) := by
  intro a
  induction a with
  | nil => intro b j h; simp at h
  | cons x xs ih =>
      intro b j hja hjb
      cases b with
      | nil => simp at hjb
      | cons y ys =>
          cases j with
          | zero => rfl
          | succ j =>
              show (List.zipWith f xs ys).getD j 0 = f (xs.getD j 0) (ys.getD j 0)
              exact ih ys j (by simpa using hja) (by simpa using hjb)

/-! ### Concrete fixtures -/

/-- Seven transitions with distinct rewards `0..6` (spec end-to-end scenario). -/
def ts7 : List (Transition Unit) :=
  [⟨(), 0, 0, (), false⟩, ⟨(), 0, 1, (), false⟩, ⟨(), 0, 2, (), false⟩,
   ⟨(), 0, 3, (), false⟩, ⟨(), 0, 4, (), false⟩, ⟨(), 0, 5, (), false⟩,
   ⟨(), 0, 6, (), false⟩]

/-- Capacity-5 buffer after inserting the seven transitions of `ts7`. -/
def buf7 : Agent Unit := (Agent.init () 5 2).storeAll ts7

/-- First three transitions of the scenario (capacity 2, one wrap). -/
def tsW : List (Transition Unit) :=
  [⟨(), 0, 0, (), false⟩, ⟨(), 0, 1, (), false⟩, ⟨(), 0, 2, (), false⟩]

/-- A DQN agent still inside burn-in (fresh construction, default-like
hyperparameters). -/
def dqnBurnFix : DQNAgent Unit Unit :=
  DQNAgent.init () 5 2 () () (1/10000) (99/100) 1 (1/10) (1/2) 1 1000 7000

def ddqnBurnFix : DDQNAgent Unit :=
  DDQNAgent.init () 5 2 [0] [0] (1/5) false (1/10000) (99/100) 1 (1/10) (1/2) 1 1000 7000

def dqvBurnFix : DQVAgent Unit Unit Unit :=
  DQVAgent.init () 5 2 () () () (1/10000) (99/100) 1 (1/10) (1/2) 1 1000 7000

def dqvmaxBurnFix : DQVMaxAgent Unit Unit Unit :=
  DQVMaxAgent.init () 5 2 () () () (1/10000) (99/100) 1 (1/10) (1/2) 1 1000 7000

/-- A DQN agent past its burn-in: capacity `M = 5`, write counter `C = 7`
(so `min(C, M) = 5`), `burn_in_period = 7`, `ε = 1`, `ε_min = 1/10`,
`decay = 1/2`. -/
def dqnActiveFix : DQNAgent Unit Unit :=
  { DQNAgent.init () 5 2 () () (1/10000) 1 1 (1/10) (1/2) 1 1000 7 with
    buf := { Agent.init () 5 2 with memCounter := 7 } }

/-- The same active DQN fixture with `List Rat` network parameters. -/
def dqnActiveFixL : DQNAgent Unit (List Rat) :=
  { DQNAgent.init () 5 2 [0] [0] (1/10000) 1 1 (1/10) (1/2) 1 1000 7 with
    buf := { Agent.init () 5 2 with memCounter := 7 } }

/-! ### Claims -/

/-- Claim C3 (confirmed).  For every capacity `M > 0` and every sequence of
`M + k` stored transitions (`k > 0`), the write counter is `M + k` and each
slot `i < M` holds the transition with the unique index `j` in the final
window `[k, M + k)` whose residue mod `M` is `i` — the store holds exactly
the last `M` transitions, row-aligned across the five arrays (`Agent.row`
packages all five buffers at one index).  Concretely (capacity 5, rewards
`0..6`): the next write index is `7 mod 5 = 2` and the reward buffer holds
`2,3,4,5,6` at positions `2,3,4,0,1`. -/
theorem c3_ring_buffer_last_m :
    (∀ (S : Type) (z : S) (M k nA : Nat) (ts : List (Transition S)),
      0 < M → 0 < k → ts.length = M + k →
      ((Agent.init z M nA).storeAll ts).memCounter = M + k ∧
      ∀ i, i < M → ∃ j, ∃ hj : j < ts.length, M + k ≤ j + M ∧ j % M = i ∧
        ((Agent.init z M nA).storeAll ts).row i = ts[j])
    ∧ (buf7.memCounter % buf7.memorySize = 2 ∧
       buf7.rewardBuffer 2 = 2 ∧ buf7.rewardBuffer 3 = 3 ∧ buf7.rewardBuffer 4 = 4 ∧
       buf7.rewardBuffer 0 = 5 ∧ buf7.rewardBuffer 1 = 6) := by
  constructor
  · intro S z M k nA ts hM hk hlen
    constructor
    · rw [Agent.memCounter_storeAll, hlen]
      simp [Agent.init]
    · intro i hi
      obtain ⟨j, hj, hwin, hres, hrow⟩ :=
        Agent.storeAll_row z M nA hM ts i (by omega)
      exact ⟨j, hj, by omega, hres, hrow⟩
  · decide

/-- Witness for C3: the general part applied at capacity 2 and three
transitions. -/
theorem c3_witness :
    ((Agent.init () 2 1).storeAll tsW).memCounter = 2 + 1 ∧
    ∀ i, i < 2 → ∃ j, ∃ hj : j < tsW.length, 2 + 1 ≤ j + 2 ∧ j % 2 = i ∧
      ((Agent.init () 2 1).storeAll tsW).row i = tsW[j] :=
  c3_ring_buffer_last_m.1 Unit () 2 1 1 tsW (by decide) (by decide) (by decide)

/-- Claim C8 (confirmed).  While the burn-in guard is active
(`mem_counter < burn_in_period`), every variant of `learn` returns the state
unchanged: ε, the learning-step counter, the buffers, the write counter and
all parameter vectors are exactly as before — `learn` is a pure no-op. -/
theorem c8_burn_in_noop :
    (∀ (S θ : Type) (qEval : θ → S → List Rat) (fit : θ → List Rat → List Rat → θ)
       (idx : List Nat) (s : DQNAgent S θ), s.buf.memCounter < s.burnInPeriod →
       DQNAgent.learn qEval fit idx s = s)
    ∧ (∀ (S : Type) (qEval : List Rat → S → List Rat)
       (fit : List Rat → List Rat → List Rat → List Rat)
       (idx : List Nat) (s : DDQNAgent S), s.buf.memCounter < s.burnInPeriod →
       DDQNAgent.learn qEval fit idx s = s)
    ∧ (∀ (S θq θv : Type) (qEval : θq → S → List Rat) (vEval : θv → S → Rat)
       (qFit : θq → List Rat → List Rat → θq) (vFit : θv → List Rat → List Rat → θv)
       (idx : List Nat) (s : DQVAgent S θq θv), s.buf.memCounter < s.burnInPeriod →
       DQVAgent.learn qEval vEval qFit vFit idx s = s)
    ∧ (∀ (S θq θv : Type) (qEval : θq → S → List Rat) (vEval : θv → S → Rat)
       (qFit : θq → List Rat → List Rat → θq) (vFit : θv → List Rat → List Rat → θv)
       (idx : List Nat) (s : DQVMaxAgent S θq θv), s.buf.memCounter < s.burnInPeriod →
       DQVMaxAgent.learn qEval vEval qFit vFit idx s = s) :=
  ⟨fun _ _ qe f i s h => dqnLearn_of_burnIn qe f i s h,
   fun _ qe f i s h => ddqnLearn_of_burnIn qe f i s h,
   fun _ _ _ qe ve qf vf i s h => dqvLearn_of_burnIn qe ve qf vf i s h,
   fun _ _ _ qe ve qf vf i s h => dqvmaxLearn_of_burnIn qe ve qf vf i s h⟩

/-- Witness for C8: all four variants applied to freshly constructed agents
(write counter 0, burn-in 7000). -/
theorem c8_witness :
    DQNAgent.learn (fun _ _ => [0]) (fun _ _ _ => ()) [0] dqnBurnFix = dqnBurnFix ∧
    DDQNAgent.learn (fun p _ => p) (fun p _ _ => p) [0] ddqnBurnFix = ddqnBurnFix ∧
    DQVAgent.learn (fun _ _ => [0]) (fun _ _ => 0) (fun _ _ _ => ()) (fun _ _ _ => ()) [0]
      dqvBurnFix = dqvBurnFix ∧
    DQVMaxAgent.learn (fun _ _ => [0]) (fun _ _ => 0) (fun _ _ _ => ()) (fun _ _ _ => ()) [0]
      dqvmaxBurnFix = dqvmaxBurnFix :=
  ⟨c8_burn_in_noop.1 Unit Unit _ _ [0] dqnBurnFix (by decide),
   c8_burn_in_noop.2.1 Unit _ _ [0] ddqnBurnFix (by decide),
   c8_burn_in_noop.2.2.1 Unit Unit Unit _ _ _ _ [0] dqvBurnFix (by decide),
   c8_burn_in_noop.2.2.2 Unit Unit Unit _ _ _ _ [0] dqvmaxBurnFix (by decide)⟩

/-- Counterexample for C5.  The claim says `learn()` is a no-op exactly when
`min(C, M) < burn_in_period`.  On `dqnActiveFix` we have `C = 7`, `M = 5`,
`burn_in_period = 7`, so `min(C, M) = 5 < 7` and the claim predicts a no-op
forever; but line 155 compares the raw counter `mem_counter` (= 7, not
`< 7`), so the call completes a learning step and increments the step
counter. -/
theorem c5_counterexample :
    min dqnActiveFix.buf.memCounter dqnActiveFix.buf.memorySize < dqnActiveFix.burnInPeriod ∧
    (DQNAgent.learn (fun _ _ => [0]) (fun _ _ _ => ()) [0] dqnActiveFix).learnStepCounter
      = dqnActiveFix.learnStepCounter + 1 := by
  constructor
  · decide
  · decide

/-- Claim C5 (corrected).  For every agent variant, `learn()` returns
immediately as a no-op exactly when the raw write counter `C = mem_counter`
is below `burn_in_period` (the comparison at lines 155/266/370/463 uses `C`
itself, not the number of valid transitions `min(C, M)`); once
`C ≥ burn_in_period` the call always completes and increments the
learning-step counter. -/
theorem c5_burn_in_guard_amended :
    (∀ (S θ : Type) (qEval : θ → S → List Rat) (fit : θ → List Rat → List Rat → θ)
       (idx : List Nat) (s : DQNAgent S θ),
       (s.buf.memCounter < s.burnInPeriod → DQNAgent.learn qEval fit idx s = s) ∧
       (s.burnInPeriod ≤ s.buf.memCounter →
         (DQNAgent.learn qEval fit idx s).learnStepCounter = s.learnStepCounter + 1))
    ∧ (∀ (S : Type) (qEval : List Rat → S → List Rat)
       (fit : List Rat → List Rat → List Rat → List Rat)
       (idx : List Nat) (s : DDQNAgent S),
       (s.buf.memCounter < s.burnInPeriod → DDQNAgent.learn qEval fit idx s = s) ∧
       (s.burnInPeriod ≤ s.buf.memCounter →
         (DDQNAgent.learn qEval fit idx s).learnStepCounter = s.learnStepCounter + 1))
    ∧ (∀ (S θq θv : Type) (qEval : θq → S → List Rat) (vEval : θv → S → Rat)
       (qFit : θq → List Rat → List Rat → θq) (vFit : θv → List Rat → List Rat → θv)
       (idx : List Nat) (s : DQVAgent S θq θv),
       (s.buf.memCounter < s.burnInPeriod → DQVAgent.learn qEval vEval qFit vFit idx s = s) ∧
       (s.burnInPeriod ≤ s.buf.memCounter →
         (DQVAgent.learn qEval vEval qFit vFit idx s).learnStepCounter = s.learnStepCounter + 1))
    ∧ (∀ (S θq θv : Type) (qEval : θq → S → List Rat) (vEval : θv → S → Rat)
       (qFit : θq → List Rat → List Rat → θq) (vFit : θv → List Rat → List Rat → θv)
       (idx : List Nat) (s : DQVMaxAgent S θq θv),
       (s.buf.memCounter < s.burnInPeriod → DQVMaxAgent.learn qEval vEval qFit vFit idx s = s) ∧
       (s.burnInPeriod ≤ s.buf.memCounter →
         (DQVMaxAgent.learn qEval vEval qFit vFit idx s).learnStepCounter
           = s.learnStepCounter + 1)) := by
  refine ⟨?_, ?_, ?_, ?_⟩
  · intro S θ qEval fit idx s
    refine ⟨dqnLearn_of_burnIn qEval fit idx s, fun h => ?_⟩
    rw [dqnLearn_eq qEval fit idx s h]
  · intro S qEval fit idx s
    refine ⟨ddqnLearn_of_burnIn qEval fit idx s, fun h => ?_⟩
    rw [ddqnLearn_eq qEval fit idx s h]
  · intro S θq θv qEval vEval qFit vFit idx s
    refine ⟨dqvLearn_of_burnIn qEval vEval qFit vFit idx s, fun h => ?_⟩
    rw [dqvLearn_eq qEval vEval qFit vFit idx s h]
  · intro S θq θv qEval vEval qFit vFit idx s
    refine ⟨dqvmaxLearn_of_burnIn qEval vEval qFit vFit idx s, fun h => ?_⟩
    rw [dqvmaxLearn_eq qEval vEval qFit vFit idx s h]

/-- Witness for C5: the DQN no-op direction on a fresh agent and the
completion direction on the active fixture. -/
theorem c5_witness :
    DQNAgent.learn (fun _ _ => [0]) (fun _ _ _ => ()) [0] dqnBurnFix = dqnBurnFix ∧
    (DQNAgent.learn (fun _ _ => [0]) (fun _ _ _ => ()) [0] dqnActiveFix).learnStepCounter
      = dqnActiveFix.learnStepCounter + 1 :=
  ⟨(c5_burn_in_guard_amended.1 Unit Unit _ _ [0] dqnBurnFix).1 (by decide),
   (c5_burn_in_guard_amended.1 Unit Unit _ _ [0] dqnActiveFix).2 (by decide)⟩

/-- Claim C6 (confirmed).  In every DQN learning step the regression target
of a terminal row is exactly the reward: line 180 zeroes the whole
`q_next` row of terminal transitions before the `max` at line 184, so the
bootstrapped term contributes `gamma * 0 = 0` regardless of the target
network estimates; and `learn` fits the online network against exactly
these per-row targets (exhibited by an optimizer oracle that returns the
target list it receives). -/
theorem c6_dqn_terminal_target :
    (∀ (qNextRow : List Rat) (reward gamma : Rat), qNextRow ≠ [] →
       dqnTargetRow qNextRow true reward gamma = reward)
    ∧ (∀ (S : Type) (qEval : List Rat → S → List Rat) (idx : List Nat)
       (s : DQNAgent S (List Rat)), s.burnInPeriod ≤ s.buf.memCounter →
       (DQNAgent.learn qEval (fun _ _ t => t) idx s).qParams
         = dqnTargets qEval s.qTargetParams s.gamma (sampleRows s.buf idx)) := by
  constructor
  · intro row r g _
    simp only [dqnTargetRow, if_pos]
    rw [listMax_replicate_zero, mul_zero, add_zero]
  · intro S qEval idx s h
    rw [dqnLearn_eq qEval (fun _ _ t => t) idx s h]

/-- Witness for C6: a concrete terminal row and the active fixture. -/
theorem c6_witness :
    dqnTargetRow [1, 2] true 5 1 = 5 ∧
    (DQNAgent.learn (fun p _ => p) (fun _ _ t => t) [0] dqnActiveFixL).qParams
      = dqnTargets (fun p _ => p) dqnActiveFixL.qTargetParams dqnActiveFixL.gamma
          (sampleRows dqnActiveFixL.buf [0]) :=
  ⟨c6_dqn_terminal_target.1 [1, 2] 5 1 (by decide),
   c6_dqn_terminal_target.2 Unit (fun p _ => p) [0] dqnActiveFixL (by decide)⟩

/-- One completed DQN learning step on a `Unit`-typed fixture (trivial
collaborator oracles; only ε and the counters matter here). -/
def dqnStep (s : DQNAgent Unit Unit) : DQNAgent Unit Unit :=
  DQNAgent.learn (fun _ _ => [0]) (fun _ _ _ => ()) [0] s

/-- A DDQN agent past its burn-in: `ε = 1`, `ε_min = 1/10`, `decay = 1/2`,
hard-update mode, sync period 1000. -/
def ddqnActiveFix : DDQNAgent Unit :=
  { DDQNAgent.init () 5 2 [0] [0] (1/5) false (1/10000) 1 1 (1/10) (1/2) 1 1000 7 with
    buf := { Agent.init () 5 2 with memCounter := 7 } }

/-- One completed DDQN learning step on the fixture. -/
def ddqnStep (s : DDQNAgent Unit) : DDQNAgent Unit :=
  DDQNAgent.learn (fun p _ => p) (fun p _ _ => p) [0] s

/-- Counterexample for C1.  With `ε_start = 1`, `ε_min = 1/10`,
`decay = 1/2`, after 4 completed DQN learning steps ε is `1/16`, not the
claimed `1/10`: the conditional at line 200 multiplies whenever
`ε > ε_min` (here `1/8 > 1/10`) and so undershoots the floor, violating
"never becomes smaller than ε_min" for the DQN variant. -/
theorem c1_counterexample :
    (dqnStep (dqnStep (dqnStep (dqnStep dqnActiveFix)))).epsilon = 1/16 ∧
    (dqnStep (dqnStep (dqnStep (dqnStep dqnActiveFix)))).epsilon
      < dqnActiveFix.epsilonMin := by
  constructor
  · norm_num [dqnStep, DQNAgent.learn, dqnActiveFix, DQNAgent.init, Agent.init, dqnEpsilonDecay]
  · norm_num [dqnStep, DQNAgent.learn, dqnActiveFix, DQNAgent.init, Agent.init, dqnEpsilonDecay]

/-- Claim C1 (corrected).  For the max-clamped variants (DDQN, DQV,
DQV-Max), ε after a completed `learn()` is never larger than before and
never below `ε_min`; with `ε_start = 1, ε_min = 1/10, decay = 1/2` the DDQN
sequence over 4 completed steps is `1 → 1/2 → 1/4 → 1/8 → 1/10`.  The DQN
variant uses the conditional decay of line 200 instead, whose value after
the same 4 steps is `1/16 < ε_min`. -/
theorem c1_epsilon_amended :
    (∀ (S : Type) (qEval : List Rat → S → List Rat)
       (fit : List Rat → List Rat → List Rat → List Rat)
       (idx : List Nat) (s : DDQNAgent S),
       s.burnInPeriod ≤ s.buf.memCounter → 0 ≤ s.epsilon → s.epsilonMin ≤ s.epsilon →
       s.epsilonDecay ≤ 1 →
       (DDQNAgent.learn qEval fit idx s).epsilon ≤ s.epsilon ∧
       s.epsilonMin ≤ (DDQNAgent.learn qEval fit idx s).epsilon)
    ∧ (∀ (S θq θv : Type) (qEval : θq → S → List Rat) (vEval : θv → S → Rat)
       (qFit : θq → List Rat → List Rat → θq) (vFit : θv → List Rat → List Rat → θv)
       (idx : List Nat) (s : DQVAgent S θq θv),
       s.burnInPeriod ≤ s.buf.memCounter → 0 ≤ s.epsilon → s.epsilonMin ≤ s.epsilon →
       s.epsilonDecay ≤ 1 →
       (DQVAgent.learn qEval vEval qFit vFit idx s).epsilon ≤ s.epsilon ∧
       s.epsilonMin ≤ (DQVAgent.learn qEval vEval qFit vFit idx s).epsilon)
    ∧ (∀ (S θq θv : Type) (qEval : θq → S → List Rat) (vEval : θv → S → Rat)
       (qFit : θq → List Rat → List Rat → θq) (vFit : θv → List Rat → List Rat → θv)
       (idx : List Nat) (s : DQVMaxAgent S θq θv),
       s.burnInPeriod ≤ s.buf.memCounter → 0 ≤ s.epsilon → s.epsilonMin ≤ s.epsilon →
       s.epsilonDecay ≤ 1 →
       (DQVMaxAgent.learn qEval vEval qFit vFit idx s).epsilon ≤ s.epsilon ∧
       s.epsilonMin ≤ (DQVMaxAgent.learn qEval vEval qFit vFit idx s).epsilon)
    ∧ ((ddqnStep ddqnActiveFix).epsilon = 1/2 ∧
       (ddqnStep (ddqnStep ddqnActiveFix)).epsilon = 1/4 ∧
       (ddqnStep (ddqnStep (ddqnStep ddqnActiveFix))).epsilon = 1/8 ∧
       (ddqnStep (ddqnStep (ddqnStep (ddqnStep ddqnActiveFix)))).epsilon = 1/10)
    ∧ (dqnStep (dqnStep (dqnStep (dqnStep dqnActiveFix)))).epsilon = 1/16 := by
  refine ⟨?_, ?_, ?_,
    by norm_num [ddqnStep, DDQNAgent.learn, ddqnActiveFix, DDQNAgent.init, Agent.init, max_def],
    by norm_num [dqnStep, DQNAgent.learn, dqnActiveFix, DQNAgent.init, Agent.init,
      dqnEpsilonDecay]⟩
  · intro S qEval fit idx s hb h0 hmin hd1
    rw [ddqnLearn_eq qEval fit idx s hb]
    exact ⟨max_le (mul_le_of_le_one_right h0 hd1) hmin, le_max_right _ _⟩
  · intro S θq θv qEval vEval qFit vFit idx s hb h0 hmin hd1
    rw [dqvLearn_eq qEval vEval qFit vFit idx s hb]
    exact ⟨max_le hmin (mul_le_of_le_one_right h0 hd1), le_max_left _ _⟩
  · intro S θq θv qEval vEval qFit vFit idx s hb h0 hmin hd1
    rw [dqvmaxLearn_eq qEval vEval qFit vFit idx s hb]
    exact ⟨max_le hmin (mul_le_of_le_one_right h0 hd1), le_max_left _ _⟩

/-- Witness for C1: the DDQN monotonicity-and-floor part applied to the
concrete fixture. -/
theorem c1_witness :
    (DDQNAgent.learn (fun p _ => p) (fun p _ _ => p) [0] ddqnActiveFix).epsilon
      ≤ ddqnActiveFix.epsilon ∧
    ddqnActiveFix.epsilonMin
      ≤ (DDQNAgent.learn (fun p _ => p) (fun p _ _ => p) [0] ddqnActiveFix).epsilon :=
  c1_epsilon_amended.1 Unit (fun p _ => p) (fun p _ _ => p) [0] ddqnActiveFix
    (by decide) (by norm_num [ddqnActiveFix, DDQNAgent.init])
    (by norm_num [ddqnActiveFix, DDQNAgent.init])
    (by norm_num [ddqnActiveFix, DDQNAgent.init])

/-- Claim C2 (confirmed).  In a Double-DQN learning step, for every
non-terminal sampled row the TD target is
`r + gamma * Q_target(s', a*)` where `a*` is the argmax of the ONLINE
network estimates at `s'` (`argmaxIdx` applied to the online row at line
290, gathered from the target row at line 296); `argmaxIdx` really selects
a maximal entry; `learn` fits the online network against exactly these
per-row targets; and in a synthetic case where the online row `[1, 0]` and
the target row `[0, 9]` disagree on the argmax, the evaluation index is the
online argmax (index 0), not the target argmax (index 1). -/
theorem c2_ddqn_online_argmax :
    (∀ (qSnextRow targetQSnextRow : List Rat) (reward gamma : Rat),
       ddqnTargetRow qSnextRow targetQSnextRow false reward gamma
         = reward + gamma * targetQSnextRow.getD (argmaxIdx qSnextRow) 0)
    ∧ (∀ (l : List Rat), l ≠ [] → ∀ x ∈ l, x ≤ l.getD (argmaxIdx l) 0)
    ∧ (∀ (S : Type) (qEval : List Rat → S → List Rat) (idx : List Nat) (s : DDQNAgent S),
       s.burnInPeriod ≤ s.buf.memCounter →
       (DDQNAgent.learn qEval (fun _ _ t => t) idx s).qParams
         = ddqnTargets qEval s.qParams s.qTargetParams s.gamma (sampleRows s.buf idx))
    ∧ (argmaxIdx [1, 0] ≠ argmaxIdx [0, 9] ∧
       ddqnTargetRow [1, 0] [0, 9] false 0 1
         = ([0, 9] : List Rat).getD (argmaxIdx [1, 0]) 0) := by
  refine ⟨?_, ?_, ?_,
    by norm_num [ddqnTargetRow, argmaxIdx, listMax]⟩
  · intro q t r g
    simp [ddqnTargetRow]
  · intro l hl x hx
    rw [getD_argmaxIdx l hl]
    exact mem_le_listMax l x hx
  · intro S qEval idx s h
    rw [ddqnLearn_eq qEval (fun _ _ t => t) idx s h]

/-- Witness for C2: the row formula, the maximality property and the
learn-level statement, each at concrete inputs. -/
theorem c2_witness :
    ddqnTargetRow [1, 2] [3, 4] false 5 1
      = 5 + 1 * (([3, 4] : List Rat).getD (argmaxIdx [1, 2]) 0) ∧
    (3 : Rat) ≤ ([3, 7] : List Rat).getD (argmaxIdx [3, 7]) 0 ∧
    (DDQNAgent.learn (fun p _ => p) (fun _ _ t => t) [0] ddqnActiveFix).qParams
      = ddqnTargets (fun p _ => p) ddqnActiveFix.qParams ddqnActiveFix.qTargetParams
          ddqnActiveFix.gamma (sampleRows ddqnActiveFix.buf [0]) :=
  ⟨c2_ddqn_online_argmax.1 [1, 2] [3, 4] 5 1,
   c2_ddqn_online_argmax.2.1 [3, 7] (by decide) 3 (List.mem_cons_self 3 [7]),
   c2_ddqn_online_argmax.2.2.1 Unit (fun p _ => p) [0] ddqnActiveFix (by decide)⟩

/-- Elementwise reading of the soft update (lines 312-313). -/
theorem softUpdateParams_getD (tw : Rat) (p t : List Rat) (j : Nat)
    (hp : j < p.length) (ht : j < t.length) :
    (softUpdateParams tw p t).getD j 0 = tw * p.getD j 0 + (1 - tw) * t.getD j 0 :=
  getD_zipWith (fun p tp => tw * p + (1 - tw) * tp) p t j hp ht

/-- A DDQN agent in soft-update mode past its burn-in: `τ = 1/2`,
sync period 1. -/
def ddqnSoftFix : DDQNAgent Unit :=
  { DDQNAgent.init () 5 2 [1] [3] (1/2) true (1/10000) 1 1 (1/10) (1/2) 1 1 7 with
    buf := { Agent.init () 5 2 with memCounter := 7 } }

/-- A DQV agent past its burn-in with sync period 1 (`List Rat` parameters). -/
def dqvActiveFix : DQVAgent Unit (List Rat) (List Rat) :=
  { DQVAgent.init () 5 2 [0] [0] [0] (1/10000) 1 1 (1/10) (1/2) 1 1 7 with
    buf := { Agent.init () 5 2 with memCounter := 7 } }

/-- A DQV-Max agent past its burn-in with sync period 1. -/
def dqvmaxActiveFix : DQVMaxAgent Unit (List Rat) (List Rat) :=
  { DQVMaxAgent.init () 5 2 [0] [0] [0] (1/10000) 1 1 (1/10) (1/2) 1 1 7 with
    buf := { Agent.init () 5 2 with memCounter := 7 } }

/-- Claim C4 (confirmed).  After a completed learning step whose new step
count is a multiple of `target_update_frequency`: the DQN target equals the
(post-gradient-step) online parameters (line 197); the hard-mode DDQN target
likewise (line 316); every soft-mode DDQN target parameter equals
`τ·θ_online + (1-τ)·θ_t_old` (lines 312-313); the DQV target-V equals the
new V parameters (line 408); the DQV-Max target-Q equals the new Q
parameters (line 507).  On any completed step whose new count is not a
multiple, the target parameters are unchanged (the optimizer holds only the
online parameters). -/
theorem c4_target_sync :
    (∀ (S θ : Type) (qEval : θ → S → List Rat) (fit : θ → List Rat → List Rat → θ)
       (idx : List Nat) (s : DQNAgent S θ),
       s.burnInPeriod ≤ s.buf.memCounter → 0 < s.targetUpdateFrequency →
       ((s.learnStepCounter + 1) % s.targetUpdateFrequency = 0 →
         (DQNAgent.learn qEval fit idx s).qTargetParams
           = (DQNAgent.learn qEval fit idx s).qParams) ∧
       ((s.learnStepCounter + 1) % s.targetUpdateFrequency ≠ 0 →
         (DQNAgent.learn qEval fit idx s).qTargetParams = s.qTargetParams))
    ∧ (∀ (S : Type) (qEval : List Rat → S → List Rat)
       (fit : List Rat → List Rat → List Rat → List Rat)
       (idx : List Nat) (s : DDQNAgent S),
       s.burnInPeriod ≤ s.buf.memCounter → 0 < s.targetUpdateFrequency →
       (s.softUpdate = false → (s.learnStepCounter + 1) % s.targetUpdateFrequency = 0 →
         (DDQNAgent.learn qEval fit idx s).qTargetParams
           = (DDQNAgent.learn qEval fit idx s).qParams) ∧
       (s.softUpdate = true → (s.learnStepCounter + 1) % s.targetUpdateFrequency = 0 →
         ∀ j, j < ((DDQNAgent.learn qEval fit idx s).qParams).length →
           j < s.qTargetParams.length →
           ((DDQNAgent.learn qEval fit idx s).qTargetParams).getD j 0
             = s.tWeight * (((DDQNAgent.learn qEval fit idx s).qParams).getD j 0)
               + (1 - s.tWeight) * (s.qTargetParams.getD j 0)) ∧
       ((s.learnStepCounter + 1) % s.targetUpdateFrequency ≠ 0 →
         (DDQNAgent.learn qEval fit idx s).qTargetParams = s.qTargetParams))
    ∧ (∀ (S θq θv : Type) (qEval : θq → S → List Rat) (vEval : θv → S → Rat)
       (qFit : θq → List Rat → List Rat → θq) (vFit : θv → List Rat → List Rat → θv)
       (idx : List Nat) (s : DQVAgent S θq θv),
       s.burnInPeriod ≤ s.buf.memCounter → 0 < s.targetUpdateFrequency →
       ((s.learnStepCounter + 1) % s.targetUpdateFrequency = 0 →
         (DQVAgent.learn qEval vEval qFit vFit idx s).targetVParams
           = (DQVAgent.learn qEval vEval qFit vFit idx s).vParams) ∧
       ((s.learnStepCounter + 1) % s.targetUpdateFrequency ≠ 0 →
         (DQVAgent.learn qEval vEval qFit vFit idx s).targetVParams = s.targetVParams))
    ∧ (∀ (S θq θv : Type) (qEval : θq → S → List Rat) (vEval : θv → S → Rat)
       (qFit : θq → List Rat → List Rat → θq) (vFit : θv → List Rat → List Rat → θv)
       (idx : List Nat) (s : DQVMaxAgent S θq θv),
       s.burnInPeriod ≤ s.buf.memCounter → 0 < s.targetUpdateFrequency →
       ((s.learnStepCounter + 1) % s.targetUpdateFrequency = 0 →
         (DQVMaxAgent.learn qEval vEval qFit vFit idx s).targetQParams
           = (DQVMaxAgent.learn qEval vEval qFit vFit idx s).qParams) ∧
       ((s.learnStepCounter + 1) % s.targetUpdateFrequency ≠ 0 →
         (DQVMaxAgent.learn qEval vEval qFit vFit idx s).targetQParams = s.targetQParams)) := by
  refine ⟨?_, ?_, ?_, ?_⟩
  · intro S θ qEval fit idx s hb _
    rw [dqnLearn_eq qEval fit idx s hb]
    exact ⟨fun hm => by simp [hm], fun hm => by simp [hm]⟩
  · intro S qEval fit idx s hb _
    refine ⟨fun hsoft hm => ?_, fun hsoft hm j hj1 hj2 => ?_, fun hm => ?_⟩
    · rw [ddqnLearn_eq qEval fit idx s hb]
      simp [hm, hsoft]
    · have hT : (DDQNAgent.learn qEval fit idx s).qTargetParams
          = softUpdateParams s.tWeight ((DDQNAgent.learn qEval fit idx s).qParams)
              s.qTargetParams := by
        rw [ddqnLearn_eq qEval fit idx s hb]
        simp [hm, hsoft]
      rw [hT]
      exact softUpdateParams_getD s.tWeight _ s.qTargetParams j hj1 hj2
    · rw [ddqnLearn_eq qEval fit idx s hb]
      simp [hm]
  · intro S θq θv qEval vEval qFit vFit idx s hb _
    rw [dqvLearn_eq qEval vEval qFit vFit idx s hb]
    exact ⟨fun hm => by simp [hm], fun hm => by simp [hm]⟩
  · intro S θq θv qEval vEval qFit vFit idx s hb _
    rw [dqvmaxLearn_eq qEval vEval qFit vFit idx s hb]
    exact ⟨fun hm => by simp [hm], fun hm => by simp [hm]⟩

/-- Witness for C4: hard-sync on the DQN fixture with period 1000 (step 1 is
not a multiple, so the target is unchanged), soft-sync elementwise on the
soft DDQN fixture with period 1, and hard syncs for DQV / DQV-Max with
period 1. -/
theorem c4_witness :
    ((DQNAgent.learn (fun _ _ => [0]) (fun _ _ _ => ()) [0] dqnActiveFix).qTargetParams
      = dqnActiveFix.qTargetParams) ∧
    (((DDQNAgent.learn (fun p _ => p) (fun p _ _ => p) [0] ddqnSoftFix).qTargetParams).getD 0 0
      = ddqnSoftFix.tWeight
          * (((DDQNAgent.learn (fun p _ => p) (fun p _ _ => p) [0] ddqnSoftFix).qParams).getD 0 0)
        + (1 - ddqnSoftFix.tWeight) * (ddqnSoftFix.qTargetParams.getD 0 0)) ∧
    ((DQVAgent.learn (fun p _ => p) (fun p _ => p.getD 0 0) (fun _ _ t => t) (fun _ _ t => t)
        [0] dqvActiveFix).targetVParams
      = (DQVAgent.learn (fun p _ => p) (fun p _ => p.getD 0 0) (fun _ _ t => t) (fun _ _ t => t)
        [0] dqvActiveFix).vParams) ∧
    ((DQVMaxAgent.learn (fun p _ => p) (fun p _ => p.getD 0 0) (fun _ _ t => t) (fun _ _ t => t)
        [0] dqvmaxActiveFix).targetQParams
      = (DQVMaxAgent.learn (fun p _ => p) (fun p _ => p.getD 0 0) (fun _ _ t => t) (fun _ _ t => t)
        [0] dqvmaxActiveFix).qParams) :=
  ⟨(c4_target_sync.1 Unit Unit _ _ [0] dqnActiveFix (by decide) (by decide)).2 (by decide),
   (c4_target_sync.2.1 Unit _ _ [0] ddqnSoftFix (by decide) (by decide)).2.1 (by decide)
     (by decide) 0 (by decide) (by decide),
   (c4_target_sync.2.2.1 Unit (List Rat) (List Rat) _ _ _ _ [0] dqvActiveFix (by decide)
     (by decide)).1 (by decide),
   (c4_target_sync.2.2.2 Unit (List Rat) (List Rat) _ _ _ _ [0] dqvmaxActiveFix (by decide)
     (by decide)).1 (by decide)⟩

/-- DQV-Max fixture for the C7 counterexample: `γ = 1`, reward 0 and
non-terminal flag in every (zero-initialized) buffer row, target-Q
parameters `[5]`, online V parameter `[0]`. -/
def dqvmaxC7Fix : DQVMaxAgent Unit (List Rat) (List Rat) :=
  { DQVMaxAgent.init () 5 2 [0] [0] [0] (1/10000) 1 1 (1/10) (1/2) 1 1000 7 with
    buf := { Agent.init () 5 2 with memCounter := 7 }
    targetQParams := [5] }

/-- One DQV-Max learning step on `dqvmaxC7Fix` with recording collaborators:
`vEval p = 2 * p₀` and both fit oracles return the target list they are
given, so after the call `vParams` holds the target the V-loss was computed
against and `qParams` holds the target the Q-loss was computed against. -/
def c7Run : DQVMaxAgent Unit (List Rat) (List Rat) :=
  DQVMaxAgent.learn (fun p _ => p) (fun p _ => 2 * p.getD 0 0)
    (fun _ _ t => t) (fun _ _ t => t) [0] dqvmaxC7Fix

/-- Counterexample for C7.  In DQV-Max the two losses of one `learn()` call
are NOT computed against one shared frozen target: the V-loss target is
`r + γ·max Q_target(s') = 5` (lines 480-484), while the Q-loss target is
`r + γ·V(s') = 10` (lines 493-496) — and the latter is evaluated with the
V-parameters produced by the V-optimizer step at line 489 (here the V update
changed `V(s')` from `0` to `10`), so the first update leaks into the
second target. -/
theorem c7_counterexample :
    c7Run.vParams = [5] ∧ c7Run.qParams = [10] ∧ c7Run.vParams ≠ c7Run.qParams := by
  refine ⟨?_, ?_, ?_⟩ <;>
    norm_num [c7Run, dqvmaxC7Fix, DQVMaxAgent.learn, DQVMaxAgent.init, Agent.init,
      dqvmaxVTargets, dqvmaxQTargets, sampleRows, Agent.row, gatherTaken, listMax]

/-- Claim C7 (corrected).  In DQV (lines 387-403) the V-loss and the Q-loss
are indeed computed against one shared target `dqvTargets`, computed once
from the pre-call target-V parameters before either update.  In DQV-Max
(lines 478-502) the two losses use two different frozen targets: the V-loss
target comes from the target-Q network, and the Q-loss target bootstraps
off the live V-network evaluated AFTER the V update of the same step. -/
theorem c7_frozen_targets_amended :
    (∀ (S θq θv : Type) (qEval : θq → S → List Rat) (vEval : θv → S → Rat)
       (qFit : θq → List Rat → List Rat → θq) (vFit : θv → List Rat → List Rat → θv)
       (idx : List Nat) (s : DQVAgent S θq θv),
       s.burnInPeriod ≤ s.buf.memCounter →
       (DQVAgent.learn qEval vEval qFit vFit idx s).vParams
         = vFit s.vParams ((sampleRows s.buf idx).map (fun r => vEval s.vParams r.state))
             (dqvTargets vEval s.targetVParams s.gamma (sampleRows s.buf idx)) ∧
       (DQVAgent.learn qEval vEval qFit vFit idx s).qParams
         = qFit s.qParams (gatherTaken qEval s.qParams (sampleRows s.buf idx))
             (dqvTargets vEval s.targetVParams s.gamma (sampleRows s.buf idx)))
    ∧ (∀ (S θq θv : Type) (qEval : θq → S → List Rat) (vEval : θv → S → Rat)
       (qFit : θq → List Rat → List Rat → θq) (vFit : θv → List Rat → List Rat → θv)
       (idx : List Nat) (s : DQVMaxAgent S θq θv),
       s.burnInPeriod ≤ s.buf.memCounter →
       (DQVMaxAgent.learn qEval vEval qFit vFit idx s).vParams
         = vFit s.vParams ((sampleRows s.buf idx).map (fun r => vEval s.vParams r.state))
             (dqvmaxVTargets qEval s.targetQParams s.gamma (sampleRows s.buf idx)) ∧
       (DQVMaxAgent.learn qEval vEval qFit vFit idx s).qParams
         = qFit s.qParams (gatherTaken qEval s.qParams (sampleRows s.buf idx))
             (dqvmaxQTargets vEval
               (vFit s.vParams ((sampleRows s.buf idx).map (fun r => vEval s.vParams r.state))
                 (dqvmaxVTargets qEval s.targetQParams s.gamma (sampleRows s.buf idx)))
               s.gamma (sampleRows s.buf idx))) := by
  constructor
  · intro S θq θv qEval vEval qFit vFit idx s hb
    rw [dqvLearn_eq qEval vEval qFit vFit idx s hb]
    exact ⟨rfl, rfl⟩
  · intro S θq θv qEval vEval qFit vFit idx s hb
    rw [dqvmaxLearn_eq qEval vEval qFit vFit idx s hb]
    exact ⟨rfl, rfl⟩

/-- Witness for C7: both parts applied to the concrete fixtures. -/
theorem c7_witness :
    ((DQVAgent.learn (fun p _ => p) (fun p _ => p.getD 0 0) (fun _ _ t => t) (fun _ _ t => t)
        [0] dqvActiveFix).qParams
      = dqvTargets (fun p _ => p.getD 0 0) dqvActiveFix.targetVParams dqvActiveFix.gamma
          (sampleRows dqvActiveFix.buf [0])) ∧
    (c7Run.qParams
      = dqvmaxQTargets (fun p _ => 2 * p.getD 0 0)
          ((fun _ _ t => t : List Rat → List Rat → List Rat → List Rat) dqvmaxC7Fix.vParams
            ((sampleRows dqvmaxC7Fix.buf [0]).map
              (fun r => (fun p _ => 2 * p.getD 0 0 : List Rat → Unit → Rat)
                dqvmaxC7Fix.vParams r.state))
            (dqvmaxVTargets (fun p _ => p) dqvmaxC7Fix.targetQParams dqvmaxC7Fix.gamma
              (sampleRows dqvmaxC7Fix.buf [0])))
          dqvmaxC7Fix.gamma (sampleRows dqvmaxC7Fix.buf [0])) :=
  ⟨(c7_frozen_targets_amended.1 Unit (List Rat) (List Rat) (fun p _ => p)
      (fun p _ => p.getD 0 0) (fun _ _ t => t) (fun _ _ t => t) [0] dqvActiveFix
      (by decide)).2,
   (c7_frozen_targets_amended.2 Unit (List Rat) (List Rat) (fun p _ => p)
      (fun p _ => 2 * p.getD 0 0) (fun _ _ t => t) (fun _ _ t => t) [0] dqvmaxC7Fix
      (by decide)).2⟩

/-- Counterexample for C9.  Constructing a DDQN agent in soft-update mode
with `τ = 2 ∉ (0, 1)` succeeds: `__init__` (lines 202-236) performs no
validation and no `ConfigurationError` (or any exception) is raised — the
out-of-range weight is simply stored and later used. -/
theorem c9_counterexample :
    (DDQNAgent.init () 5 2 [0] [0] 2 true (1/10000) (99/100) 1 (1/10) (1/2)
      32 1000 7000).tWeight = 2 ∧
    (DDQNAgent.init () 5 2 [0] [0] 2 true (1/10000) (99/100) 1 (1/10) (1/2)
      32 1000 7000).softUpdate = true ∧
    ¬ ((0 : Rat) < 2 ∧ (2 : Rat) < 1) := by
  refine ⟨rfl, rfl, ?_⟩
  norm_num

/-- Claim C9 (corrected).  `DDQNAgent.__init__` accepts every interpolation
weight τ, with or without soft update: the value is stored unvalidated and
construction never fails (there is no `ConfigurationError` anywhere in the
source); an out-of-range τ is later applied verbatim by the soft update of
lines 312-313. -/
theorem c9_tau_unvalidated_amended :
    (∀ (S : Type) (z : S) (M nA : Nat) (qd td : List Rat) (tw : Rat) (soft : Bool)
       (lr g e em ed : Rat) (bs tuf bp : Nat),
       (DDQNAgent.init z M nA qd td tw soft lr g e em ed bs tuf bp).tWeight = tw ∧
       (DDQNAgent.init z M nA qd td tw soft lr g e em ed bs tuf bp).softUpdate = soft)
    ∧ (∀ (tw p tp : Rat), softUpdateParams tw [p] [tp] = [tw * p + (1 - tw) * tp]) :=
  ⟨fun _ _ _ _ _ _ _ _ _ _ _ _ _ _ _ _ => ⟨rfl, rfl⟩, fun _ _ _ => rfl⟩

/-- A DDQN agent freshly constructed from distinguishable network draws:
the online draw is `[0]`, the target draw is `[1]`. -/
def c10Fix : DDQNAgent Unit :=
  DDQNAgent.init () 5 2 [0] [1] (1/5) false (1/10000) (99/100) 1 (1/10) (1/2) 32 1000 7000

/-- Counterexample for C10.  Immediately after DDQN construction the target
parameters do NOT equal the online parameters: lines 227-229 create the
target network but, unlike `DQNAgent.__init__` (line 118), never call
`load_state_dict`, so the target keeps its own independent initialization. -/
theorem c10_counterexample :
    c10Fix.qParams = [0] ∧ c10Fix.qTargetParams = [1] ∧
    c10Fix.qTargetParams ≠ c10Fix.qParams := by
  refine ⟨rfl, rfl, ?_⟩
  norm_num [c10Fix, DDQNAgent.init]

/-- Claim C10 (corrected).  Immediately after construction the target
parameters equal their online counterpart for DQN (line 118), DQV
(line 346, target-V) and DQV-Max (line 439, target-Q) — whatever the second
fresh draw was; but the DDQN target keeps its own fresh draw, becoming equal
to the online network only at the first hard sync. -/
theorem c10_target_copy_amended :
    (∀ (S θ : Type) (z : S) (M nA : Nat) (qd td : θ) (lr g e em ed : Rat) (bs tuf bp : Nat),
       (DQNAgent.init z M nA qd td lr g e em ed bs tuf bp).qTargetParams
         = (DQNAgent.init z M nA qd td lr g e em ed bs tuf bp).qParams)
    ∧ (∀ (S θq θv : Type) (z : S) (M nA : Nat) (qd : θq) (vd tvd : θv)
       (lr g e em ed : Rat) (bs tuf bp : Nat),
       (DQVAgent.init z M nA qd vd tvd lr g e em ed bs tuf bp).targetVParams
         = (DQVAgent.init z M nA qd vd tvd lr g e em ed bs tuf bp).vParams)
    ∧ (∀ (S θq θv : Type) (z : S) (M nA : Nat) (qd tqd : θq) (vd : θv)
       (lr g e em ed : Rat) (bs tuf bp : Nat),
       (DQVMaxAgent.init z M nA qd tqd vd lr g e em ed bs tuf bp).targetQParams
         = (DQVMaxAgent.init z M nA qd tqd vd lr g e em ed bs tuf bp).qParams)
    ∧ (∀ (S : Type) (z : S) (M nA : Nat) (qd td : List Rat) (tw : Rat) (soft : Bool)
       (lr g e em ed : Rat) (bs tuf bp : Nat),
       (DDQNAgent.init z M nA qd td tw soft lr g e em ed bs tuf bp).qParams = qd ∧
       (DDQNAgent.init z M nA qd td tw soft lr g e em ed bs tuf bp).qTargetParams = td) :=
  ⟨fun _ _ _ _ _ _ _ _ _ _ _ _ _ _ _ => rfl,
   fun _ _ _ _ _ _ _ _ _ _ _ _ _ _ _ _ _ => rfl,
   fun _ _ _ _ _ _ _ _ _ _ _ _ _ _ _ _ _ => rfl,
   fun _ _ _ _ _ _ _ _ _ _ _ _ _ _ _ _ => ⟨rfl, rfl⟩⟩
